import Mathlib

/-!
Verification development for the SkyPrep classroom portal's session-scheduling
and calendar subsystem.  The TypeScript source is shallowly embedded: pure
helpers become Lean functions, event handlers become functions from the
component state they read to the request they issue (or `none` when the
client-side validation stops the submission), and JavaScript local dates are
modelled at millisecond / day-number granularity.
-/

/-! ## JavaScript string model

JavaScript `String.prototype.trim` removes leading and trailing whitespace.
We model the whitespace class by its common members; only the fact that
trimming removes a (possibly empty) prefix and suffix matters to the claims.
A string is truthy in JavaScript iff it is non-empty. -/

def jsWhitespace (c : Char) : Bool :=
  c = ' ' || c = '\t' || c = '\n' || c = '\r' || c = '\x0b' || c = '\x0c'

def jsTrim (s : String) : String :=
  ⟨((s.data.dropWhile jsWhitespace).reverse.dropWhile jsWhitespace).reverse⟩

def jsTruthyString (s : String) : Bool := !(s == "")

/-- Truthiness of an optional string field (`undefined` and `''` are falsy). -/
def jsTruthyOptString : Option String → Bool
  | none => false
  | some s => jsTruthyString s

/-! ## Local time model

A JavaScript `Date` read on the viewer's clock is modelled as the number of
milliseconds elapsed on the local clock since the local epoch midnight.
`localDay` models the `'yyyy-MM-dd'` date key (equivalently the
`getDate`/`getMonth`/`getFullYear` triple) and `localHour` models
`getHours()`. -/

def msPerHour : Nat := 3600000

def msPerDay : Nat := 86400000

def localDay (t : Nat) : Nat := t / msPerDay

def localHour (t : Nat) : Nat := t % msPerDay / msPerHour

/-! ## Session record (src/features/sessions/api/session-api.ts) -/

inductive SessionStatus where
  | requested
  | accepted
  | rejected
  | scheduled
  | ongoing
  | completed
  | cancelled
deriving DecidableEq, Repr

structure Session where
  _id : String
  title : String
  description : Option String := none
  startTime : Nat
  endTime : Nat
  status : SessionStatus
  meetingLink : Option String := none
  rejectionReason : Option String := none
  cancellationReason : Option String := none
deriving DecidableEq, Repr

/-! ## Teacher session-requests page
(src/features/sessions/pages/teacher-session-requests-page.tsx)

The accept and reject dialogs are embedded as functions from the component
state (the controlled field values plus the mutation's pending flag) to the
request the click on the submit button issues, or `none` when the button is
disabled or the handler returns early. -/

structure AcceptSessionRequest where
  title : Option String := none
  description : Option String := none
deriving DecidableEq, Repr

namespace TeacherSessionRequestsPage

/-- Accept-dialog submit button: `disabled={acceptMutation.isPending ||
!title.trim() || !description.trim() || description.trim().length < 10}`. -/
def acceptDisabled (isPending : Bool) (title description : String) : Bool :=
  isPending || !(jsTruthyString (jsTrim title)) || !(jsTruthyString (jsTrim description))
    || decide ((jsTrim description).length < 10)

/-- Body of `handleAccept` composed with `acceptMutation.mutationFn`: both
layers include `title`/`description` in the request only when the trimmed
value is truthy. -/
def handleAccept (title description : String) : AcceptSessionRequest :=
  { title := if jsTruthyString (jsTrim title) then some (jsTrim title) else none
    description :=
      if jsTruthyString (jsTrim description) then some (jsTrim description) else none }

/-- Clicking the accept submit button: fires `handleAccept` only when the
button is enabled. -/
def acceptSubmit (isPending : Bool) (title description : String) :
    Option AcceptSessionRequest :=
  if acceptDisabled isPending title description then none
  else some (handleAccept title description)

/-- The dialog opens pre-filled from the session (`openAcceptDialog`):
`setTitle(session.title || '')`, `setDescription(session.description || '')`.
The `maxLength` attributes cap typed input but do not truncate these
programmatically assigned values. -/
def openAcceptDialog (session : Session) : String × String :=
  (if jsTruthyString session.title then session.title else "",
   match session.description with
   | some d => if jsTruthyString d then d else ""
   | none => "")

/-- Reject-dialog submit button: `disabled={rejectMutation.isPending ||
!rejectionReason.trim() || rejectionReason.trim().length < 10}`. -/
def rejectDisabled (isPending : Bool) (rejectionReason : String) : Bool :=
  isPending || !(jsTruthyString (jsTrim rejectionReason))
    || decide ((jsTrim rejectionReason).length < 10)

/-- Body of `handleReject`: returns early unless the trimmed reason is
truthy, otherwise mutates with the trimmed reason. -/
def handleReject (rejectionReason : String) : Option String :=
  if !(jsTruthyString (jsTrim rejectionReason)) then none
  else some (jsTrim rejectionReason)

/-- Clicking the reject submit button. -/
def rejectSubmit (isPending : Bool) (rejectionReason : String) : Option String :=
  if rejectDisabled isPending rejectionReason then none
  else handleReject rejectionReason

end TeacherSessionRequestsPage

/-! ## Session detail dialog (src/components/layout/sidebar.tsx)

The accept/reject/cancel dialogs of SessionDetailDialog repeat the same
guards and handlers as the teacher session-requests page; the cancel dialog
additionally exists only here. -/

namespace SessionDetailDialog

def acceptDisabled (isPending : Bool) (title description : String) : Bool :=
  isPending || !(jsTruthyString (jsTrim title)) || !(jsTruthyString (jsTrim description))
    || decide ((jsTrim description).length < 10)

def handleAccept (title description : String) : AcceptSessionRequest :=
  { title := if jsTruthyString (jsTrim title) then some (jsTrim title) else none
    description :=
      if jsTruthyString (jsTrim description) then some (jsTrim description) else none }

def acceptSubmit (isPending : Bool) (title description : String) :
    Option AcceptSessionRequest :=
  if acceptDisabled isPending title description then none
  else some (handleAccept title description)

def rejectDisabled (isPending : Bool) (rejectionReason : String) : Bool :=
  isPending || !(jsTruthyString (jsTrim rejectionReason))
    || decide ((jsTrim rejectionReason).length < 10)

def handleReject (rejectionReason : String) : Option String :=
  if !(jsTruthyString (jsTrim rejectionReason)) then none
  else some (jsTrim rejectionReason)

def rejectSubmit (isPending : Bool) (rejectionReason : String) : Option String :=
  if rejectDisabled isPending rejectionReason then none
  else handleReject rejectionReason

/-- Cancel-dialog submit button: `disabled={cancelMutation.isPending ||
!cancellationReason.trim() || cancellationReason.trim().length < 10}`. -/
def cancelDisabled (isPending : Bool) (cancellationReason : String) : Bool :=
  isPending || !(jsTruthyString (jsTrim cancellationReason))
    || decide ((jsTrim cancellationReason).length < 10)

/-- Body of `handleCancel`. -/
def handleCancel (cancellationReason : String) : Option String :=
  if !(jsTruthyString (jsTrim cancellationReason)) then none
  else some (jsTrim cancellationReason)

/-- Clicking the cancel submit button. -/
def cancelSubmit (isPending : Bool) (cancellationReason : String) : Option String :=
  if cancelDisabled isPending cancellationReason then none
  else handleCancel cancellationReason

end SessionDetailDialog

/-! ## API error normalisation (src/lib/http/api-error.ts, src/types/api.ts) -/

structure ApiErrorDetail where
  field : Option String := none
  message : String
deriving DecidableEq, Repr

/-- The `details` object of an error body; the boundary code only ever reads
its optional `validationErrors` array of strings. -/
structure ApiErrorDetails where
  validationErrors : Option (List String) := none
deriving DecidableEq, Repr

structure ApiErrorBody where
  code : Option String := none
  message : Option String := none
  details : Option ApiErrorDetails := none
deriving DecidableEq, Repr

structure ApiErrorResponse where
  success : Bool
  message : Option String := none
  error : Option ApiErrorBody := none
  errors : Option (List ApiErrorDetail) := none
deriving DecidableEq, Repr

structure ApiClientError where
  message : String
  status : Option Nat := none
  errors : Option (List ApiErrorDetail) := none
  code : Option String := none
  details : Option ApiErrorDetails := none
deriving DecidableEq, Repr

/-- The body of an axios response: either a structured error payload, some
other object that happens to carry a string `message`, or anything else. -/
inductive AxiosResponseData where
  | payload (p : ApiErrorResponse)
  | objectWithMessage (message : String)
  | other
deriving DecidableEq, Repr

structure AxiosResponse where
  status : Nat
  statusText : String
  data : Option AxiosResponseData := none
deriving DecidableEq, Repr

structure AxiosErrorValue where
  message : String
  response : Option AxiosResponse := none
deriving DecidableEq, Repr

/-- The universe of values `toApiClientError` can receive (`error: unknown`):
an `ApiClientError`, an `AxiosError`, any other `Error`, or a non-Error
value. -/
inductive ErrorValue where
  | apiClientError (e : ApiClientError)
  | axiosError (ax : AxiosErrorValue)
  | otherError (message : String)
  | nonError
deriving DecidableEq, Repr

/-- JavaScript `a || b` on optional strings: the left operand wins when it is
a truthy (non-empty) string. -/
def jsOrString (a : Option String) (b : String) : String :=
  match a with
  | some s => if jsTruthyString s then s else b
  | none => b

def toApiClientError : ErrorValue → ApiClientError
  | .apiClientError e => e
  | .axiosError ax =>
    match ax.response with
    | some resp =>
      match resp.data with
      | some (.payload payload) =>
        if payload.success = false then
          let detailErrors : List ApiErrorDetail :=
            (payload.errors.getD []) ++
              (match payload.error with
               | some body =>
                 (body.details.elim [] (fun d => d.validationErrors.getD [])).map
                   (fun m => { message := m })
               | none => [])
          let message :=
            jsOrString (payload.error.bind (·.message))
              (jsOrString payload.message
                (jsOrString (some resp.statusText) "Request failed"))
          { message := message
            status := some resp.status
            errors := if detailErrors.length ≠ 0 then some detailErrors else none
            code := payload.error.bind (·.code)
            details := payload.error.bind (·.details) }
        else
          { message :=
              jsOrString (some ax.message) "Request failed"
            status := some resp.status }
      | some (.objectWithMessage m) =>
        { message := jsOrString (some m) (jsOrString (some ax.message) "Request failed")
          status := some resp.status }
      | _ =>
        { message := jsOrString (some ax.message) "Request failed"
          status := some resp.status }
    | none =>
      { message := jsOrString (some ax.message) "Request failed" }
  | .otherError m => { message := m }
  | .nonError => { message := "Something went wrong" }

/-! ## Notifications (src/lib/notifications.ts)

`notifyError` resolves the toast title from the message and the fallback.
`handleApiError` normalises the error, collects field-scoped and general
messages, and ALWAYS raises an error toast before returning. -/

/-- Title shown by `notifyError`: the message when it has non-blank content,
the fallback otherwise. -/
def notifyErrorTitle (message : Option String) (fallback : String) : String :=
  match message with
  | some m => if jsTruthyString (jsTrim m) then m else fallback
  | none => fallback

structure NormalizedApiError where
  message : String
  fieldErrors : List (String × String)
  generalMessages : List String
deriving DecidableEq, Repr

/-- Record-style insertion used by `fieldErrors[detail.field] = detail.message`:
a later entry for the same key overwrites the earlier one. -/
def recordSet (m : List (String × String)) (key value : String) :
    List (String × String) :=
  if m.any (fun kv => kv.1 == key) then
    m.map (fun kv => if kv.1 == key then (key, value) else kv)
  else m ++ [(key, value)]

/-- The `handleApiError` function; returns the normalised error together with
the list of toast titles it raised (always exactly one). -/
def handleApiError (error : ErrorValue) (fallbackMessage : String) :
    NormalizedApiError × List String :=
  let apiError := toApiClientError error
  let collected :=
    (apiError.errors.getD []).foldl
      (fun (acc : List (String × String) × List String) detail =>
        match detail.field with
        | some f =>
          if jsTruthyString f then
            if jsTruthyString detail.message then
              (recordSet acc.1 f detail.message, acc.2)
            else acc
          else
            if jsTruthyString detail.message then (acc.1, acc.2 ++ [detail.message])
            else acc
        | none =>
          if jsTruthyString detail.message then (acc.1, acc.2 ++ [detail.message])
          else acc)
      ([], [])
  let message :=
    if jsTruthyString (jsTrim apiError.message) then jsTrim apiError.message
    else fallbackMessage
  ({ message := message
     fieldErrors := collected.1
     generalMessages := collected.2 },
   [notifyErrorTitle (some message) fallbackMessage])

/-! ## Mutation onError handlers

Each mutation's `onError` callback consumes `handleApiError`'s result.  The
effects are the inline field errors passed to `setErrors` (when the handler
calls it) and the toast titles raised in total (including the toast that
`handleApiError` itself raises). -/

structure MutationErrorEffects where
  inlineFieldErrors : Option (List (String × String))
  toasts : List String
deriving DecidableEq, Repr

/-- The `requestMutation.onError` handler of the request-session dialog:
`if (fieldErrors) setErrors(fieldErrors)` — `fieldErrors` is a JavaScript
object and hence always truthy, so `setErrors` always runs;
`if (message && !fieldErrors) notifyError(message, ...)` — always false for
the same reason, so this `notifyError` never runs.  The toast raised inside
`handleApiError` remains. -/
def requestMutationOnError (error : ErrorValue) : MutationErrorEffects :=
  let r := handleApiError error "Failed to request session"
  { inlineFieldErrors := some r.1.fieldErrors
    toasts := r.2 }

/-- The `scheduleMutation.onError` handler of the teacher schedule-session dialog:
the same shape as the request dialog's handler, with its own fallback. -/
def scheduleMutationOnError (error : ErrorValue) : MutationErrorEffects :=
  let r := handleApiError error "Failed to schedule session"
  { inlineFieldErrors := some r.1.fieldErrors
    toasts := r.2 }

/-- The `acceptMutation.onError` handler (teacher session-requests page and session
detail dialog): destructures `message` from `handleApiError` and calls
`notifyError(message)` — a second toast on top of the one `handleApiError`
already raised; no field errors are ever set inline. -/
def acceptMutationOnError (error : ErrorValue) : MutationErrorEffects :=
  let r := handleApiError error "Failed to accept session request"
  { inlineFieldErrors := none
    toasts := r.2 ++ [notifyErrorTitle (some r.1.message) "Something went wrong"] }

/-- The `rejectMutation.onError` handler (both reject dialogs): same pattern as accept. -/
def rejectMutationOnError (error : ErrorValue) : MutationErrorEffects :=
  let r := handleApiError error "Failed to reject session request"
  { inlineFieldErrors := none
    toasts := r.2 ++ [notifyErrorTitle (some r.1.message) "Something went wrong"] }

/-- The `cancelMutation.onError` handler (session detail dialog): same pattern. -/
def cancelMutationOnError (error : ErrorValue) : MutationErrorEffects :=
  let r := handleApiError error "Failed to cancel session"
  { inlineFieldErrors := none
    toasts := r.2 ++ [notifyErrorTitle (some r.1.message) "Something went wrong"] }

/-- The `rescheduleMutation.onError` handler (session detail dialog): same pattern. -/
def rescheduleMutationOnError (error : ErrorValue) : MutationErrorEffects :=
  let r := handleApiError error "Failed to reschedule session"
  { inlineFieldErrors := none
    toasts := r.2 ++ [notifyErrorTitle (some r.1.message) "Something went wrong"] }

/-! ## Request-session dialog
(src/features/sessions/components/request-session-dialog.tsx)

Dates are modelled at day granularity: a local-midnight `Date` is the number
of days since the epoch, and `getDay()` is the JavaScript weekday
(0 = Sunday; day 0, 1970-01-01, was a Thursday). -/

def jsGetDay (d : Nat) : Nat := (d + 4) % 7

namespace RequestSessionDialog

/-- The `getMinDate` helper: minimum is one day after the program start date
(or tomorrow without one), bumped off a Sunday, and never before tomorrow
(itself bumped off a Sunday). -/
def getMinDate (today : Nat) (programStartDate : Option Nat) : Nat :=
  let minDate :=
    match programStartDate with
    | some startDate => startDate + 1
    | none => today + 1
  let minDate := if jsGetDay minDate = 0 then minDate + 1 else minDate
  let tomorrow := today + 1
  let tomorrow := if jsGetDay tomorrow = 0 then tomorrow + 1 else tomorrow
  if minDate < tomorrow then tomorrow else minDate

/-- Helper naming the two Sunday bumps of `getMinDate`: the next non-Sunday
day at or after `d`. -/
def skipSunday (d : Nat) : Nat := if jsGetDay d = 0 then d + 1 else d

structure SelectedSlot where
  startTime : Nat
  endTime : Nat
  startTimeFormatted : String := ""
  endTimeFormatted : String := ""
deriving DecidableEq, Repr

structure RequestSessionRequest where
  title : String
  startTime : Nat
  endTime : Nat
  focusOne : String
  subject : String
deriving DecidableEq, Repr

/-- Stand-in for `toLocaleDateString('en-US', ...)`; only the messages whose
exact text no claim inspects interpolate it. -/
def formatDate (d : Nat) : String := toString d

def advanceMessage : String := "Sessions must be scheduled at least one day in advance"

def pastMessage : String := "Cannot schedule sessions in the past"

def beforeMinMessage (minDateObj : Nat) : String :=
  "Sessions can only be scheduled from " ++ formatDate minDateObj ++
    " onwards (at least one day after program start date)"

def sundayMessage : String := "Sessions cannot be scheduled on Sundays"

/-- The date branch of `handleSubmit`'s validation cascade. -/
def dateValidationError (selected today minDateObj : Nat) : Option String :=
  if selected = today then some advanceMessage
  else if selected < today then some pastMessage
  else if selected < minDateObj then some (beforeMinMessage minDateObj)
  else if jsGetDay selected = 0 then some sundayMessage
  else none

/-- The `handleSubmit` handler: validates subject, date and slot, sets the
collected field errors and returns without mutating when any exist;
otherwise issues the request built from the selected slot. -/
def handleSubmit (selectedSubject : String) (selectedDate : Option Nat)
    (selectedSlot : Option SelectedSlot) (subjects : List (String × String))
    (today minDateObj : Nat) (focusOneId : String) :
    List (String × String) × Option RequestSessionRequest :=
  let subjectErrors :=
    if !(jsTruthyString (jsTrim selectedSubject)) then
      [("subject", "Please select a subject")]
    else []
  let dateErrors :=
    match selectedDate with
    | none => [("date", "Please select a date")]
    | some selected =>
      match dateValidationError selected today minDateObj with
      | some msg => [("date", msg)]
      | none => []
  let slotErrors :=
    match selectedSlot with
    | none => [("slot", "Please select an available time slot")]
    | some _ => []
  let newErrors := subjectErrors ++ dateErrors ++ slotErrors
  if newErrors.length ≠ 0 then (newErrors, none)
  else
    match selectedSlot with
    | none => (newErrors, none)
    | some slot =>
      let subjectName :=
        jsOrString ((subjects.find? (fun p => p.1 == selectedSubject)).map (·.2))
          "Session"
      let autoTitle :=
        subjectName ++ " Session - " ++
          formatDate (selectedDate.getD minDateObj) ++ " at " ++
          slot.startTimeFormatted
      (newErrors,
       some { title := autoTitle
              startTime := slot.startTime
              endTime := slot.endTime
              focusOne := focusOneId
              subject := selectedSubject })

end RequestSessionDialog

/-! ## Month view (src/features/dashboard/components/calendar-views/month-view.tsx) -/

namespace MonthView

/-- Grouping by the `'yyyy-MM-dd'` key of the start time keeps the input
order inside each bucket, so a bucket is the order-preserving filter of the
input by its day. -/
def getSessionsForDate (sessions : List Session) (day : Nat) : List Session :=
  sessions.filter (fun s => decide (localDay s.startTime = day))

/-- A day cell renders `daySessions.slice(0, 3)` inline. -/
def inlineSessions (daySessions : List Session) : List Session :=
  daySessions.take 3

/-- The overflow affordance: shown with count N − 3 exactly when N > 3. -/
def overflowLabelCount (daySessions : List Session) : Option Nat :=
  if daySessions.length > 3 then some (daySessions.length - 3) else none

end MonthView

/-! ## Day-sessions dialog (src/features/dashboard/components/calendar-event.tsx) -/

namespace DaySessionsDialog

/-- JavaScript `[...sessions].sort((a, b) => aStart − bStart)`: a stable ascending sort
by start time. -/
def sortedSessions (sessions : List Session) : List Session :=
  sessions.mergeSort (fun a b => a.startTime ≤ b.startTime)

/-- The dialog header shows `sessions.length` as the session count. -/
def sessionCount (sessions : List Session) : Nat := sessions.length

/-- Join-link guard of a dialog entry: `session.meetingLink &&
(session.status === 'scheduled' || session.status === 'ongoing') &&
isSessionToday(session.startTime)`. -/
def joinLinkVisible (s : Session) (today : Nat) : Bool :=
  jsTruthyOptString s.meetingLink
    && (s.status == .scheduled || s.status == .ongoing)
    && decide (localDay s.startTime = localDay today)

end DaySessionsDialog

/-- Join-link guard of the session detail dialog
(src/components/layout/sidebar.tsx): `session.meetingLink &&
(session.status === 'scheduled' || session.status === 'ongoing') &&
isSessionToday`, with `isSessionToday` comparing the date/month/year triple
against the current date. -/
def SessionDetailDialog.joinLinkVisible (s : Session) (today : Nat) : Bool :=
  jsTruthyOptString s.meetingLink
    && (s.status == .scheduled || s.status == .ongoing)
    && decide (localDay s.startTime = localDay today)

/-- Join-link guard of the student live-sessions list:
`session.meetingLink && isUpcoming && isSessionToday` with
`isUpcoming = status === 'scheduled' || status === 'ongoing'`. -/
def LiveSessionsPage.joinLinkVisible (s : Session) (today : Nat) : Bool :=
  let isUpcoming := s.status == .scheduled || s.status == .ongoing
  jsTruthyOptString s.meetingLink
    && isUpcoming
    && decide (localDay s.startTime = localDay today)

/-! ## Week view (src/features/dashboard/components/calendar-views/week-view.tsx) -/

namespace WeekView

def getSessionsForDate (sessions : List Session) (day : Nat) : List Session :=
  sessions.filter (fun s => decide (localDay s.startTime = day))

/-- The per-hour candidate filter: keeps every session overlapping the hour
window `[hourStart, hourStart + 1h)` of the given day. -/
def getSessionsForHour (day hour : Nat) (sessions : List Session) : List Session :=
  sessions.filter (fun s =>
    let hourStart := day * msPerDay + hour * msPerHour
    let hourEnd := hourStart + msPerHour
    decide ((hourStart ≤ s.startTime ∧ s.startTime < hourEnd)
      ∨ (hourStart < s.endTime ∧ s.endTime ≤ hourEnd)
      ∨ (s.startTime ≤ hourStart ∧ hourEnd ≤ s.endTime)))

/-- What the cell for (day, hour) actually renders: the candidates of that
hour, each dropped unless `isStartHour`
(`sessionStart.getHours() === hour`) holds. -/
def renderedSessions (sessions : List Session) (day hour : Nat) : List Session :=
  (getSessionsForHour day hour (getSessionsForDate sessions day)).filter
    (fun s => decide (localHour s.startTime = hour))

end WeekView

/-! ## Day view (same file, `DayView` component) -/

namespace DayView

/-- Sessions of the current day (`format(sessionDate, 'yyyy-MM-dd') ===
format(currentDate, 'yyyy-MM-dd')`). -/
def daySessions (sessions : List Session) (currentDay : Nat) : List Session :=
  sessions.filter (fun s => decide (localDay s.startTime = currentDay))

/-- The day's sessions sorted ascending by start time. -/
def sortedSessions (sessions : List Session) (currentDay : Nat) : List Session :=
  (daySessions sessions currentDay).mergeSort (fun a b => a.startTime ≤ b.startTime)

/-- The per-hour candidate filter, identical in shape to the week view's. -/
def getSessionsForHour (sessions : List Session) (currentDay hour : Nat) :
    List Session :=
  (sortedSessions sessions currentDay).filter (fun s =>
    let hourStart := currentDay * msPerDay + hour * msPerHour
    let hourEnd := hourStart + msPerHour
    decide ((hourStart ≤ s.startTime ∧ s.startTime < hourEnd)
      ∨ (hourStart < s.endTime ∧ s.endTime ≤ hourEnd)
      ∨ (s.startTime ≤ hourStart ∧ hourEnd ≤ s.endTime)))

/-- What the hour row renders: candidates filtered by
`sessionStart.getHours() === hour`. -/
def renderedSessions (sessions : List Session) (currentDay hour : Nat) :
    List Session :=
  (getSessionsForHour sessions currentDay hour).filter
    (fun s => decide (localHour s.startTime = hour))

end DayView

/-! ## Calendar page date arithmetic
(CalendarPage in src/features/dashboard/pages/profile-page.tsx)

`currentDate` is a JavaScript `Date`; the date-fns period helpers the page
uses (`startOfMonth`, `endOfMonth`, `startOfWeek`/`endOfWeek` with
`weekStartsOn: 0`, `startOfDay`/`endOfDay`) operate on the local civil
calendar.  A local date is embedded as a year/month/day triple; the proleptic
Gregorian rules give day numbers (days since 1970-01-01, a Thursday) and
weekdays. -/

namespace CalendarPage

def isLeapYear (y : Nat) : Bool :=
  (y % 4 == 0 && y % 100 != 0) || (y % 400 == 0)

def daysInMonth (y m : Nat) : Nat :=
  match m with
  | 1 => 31
  | 2 => if isLeapYear y then 29 else 28
  | 3 => 31
  | 4 => 30
  | 5 => 31
  | 6 => 30
  | 7 => 31
  | 8 => 31
  | 9 => 30
  | 10 => 31
  | 11 => 30
  | 12 => 31
  | _ => 0

structure JsDate where
  year : Nat
  month : Nat
  day : Nat
deriving DecidableEq, Repr

def ValidDate (p : JsDate) : Prop :=
  1970 ≤ p.year ∧ 1 ≤ p.month ∧ p.month ≤ 12 ∧ 1 ≤ p.day ∧
    p.day ≤ daysInMonth p.year p.month

instance (p : JsDate) : Decidable (ValidDate p) := by
  unfold ValidDate
  infer_instance

/-- Days in year `y` occupied by the months strictly before month `m`. -/
def daysBeforeMonth (y : Nat) : Nat → Nat
  | 0 => 0
  | 1 => 0
  | Nat.succ m => daysBeforeMonth y m + daysInMonth y m

/-- Days between 1970-01-01 and the start of the year `1970 + n`. -/
def daysSinceEpochOfYear : Nat → Nat
  | 0 => 0
  | n + 1 => daysSinceEpochOfYear n + daysBeforeMonth (1970 + n) 13

def daysBeforeYear (y : Nat) : Nat := daysSinceEpochOfYear (y - 1970)

/-- Days elapsed since the local epoch midnight 1970-01-01. -/
def dayNumber (p : JsDate) : Nat :=
  daysBeforeYear p.year + daysBeforeMonth p.year p.month + (p.day - 1)

/-- JavaScript `getDay()`: 0 = Sunday; 1970-01-01 was a Thursday. -/
def getDayOfWeek (p : JsDate) : Nat := (dayNumber p + 4) % 7

def predDay (p : JsDate) : JsDate :=
  if 1 < p.day then ⟨p.year, p.month, p.day - 1⟩
  else if 1 < p.month then ⟨p.year, p.month - 1, daysInMonth p.year (p.month - 1)⟩
  else ⟨p.year - 1, 12, 31⟩

def succDay (p : JsDate) : JsDate :=
  if p.day < daysInMonth p.year p.month then ⟨p.year, p.month, p.day + 1⟩
  else if p.month < 12 then ⟨p.year, p.month + 1, 1⟩
  else ⟨p.year + 1, 1, 1⟩

def subDays (p : JsDate) : Nat → JsDate
  | 0 => p
  | k + 1 => predDay (subDays p k)

def addDays (p : JsDate) : Nat → JsDate
  | 0 => p
  | k + 1 => succDay (addDays p k)

def startOfMonth (p : JsDate) : JsDate := ⟨p.year, p.month, 1⟩

def endOfMonth (p : JsDate) : JsDate := ⟨p.year, p.month, daysInMonth p.year p.month⟩

def startOfDay (p : JsDate) : JsDate := p

def endOfDay (p : JsDate) : JsDate := p

/-- date-fns `startOfWeek(date, { weekStartsOn: 0 })`: back up `getDay()`
days to the previous (or same) Sunday. -/
def startOfWeek (p : JsDate) : JsDate := subDays p (getDayOfWeek p)

/-- date-fns `endOfWeek(date, { weekStartsOn: 0 })`: the Saturday six days
after the week's Sunday. -/
def endOfWeek (p : JsDate) : JsDate := addDays (startOfWeek p) 6

inductive CalendarView where
  | month
  | week
  | day
deriving DecidableEq, Repr

/-- The `dateRange` memo of the calendar page. -/
def dateRange : CalendarView → JsDate → JsDate × JsDate
  | .month, currentDate => (startOfMonth currentDate, endOfMonth currentDate)
  | .week, currentDate => (startOfWeek currentDate, endOfWeek currentDate)
  | .day, currentDate => (startOfDay currentDate, endOfDay currentDate)

/-- The `handleToday` navigation action: replaces the pivot with the current date. -/
def handleToday (today : JsDate) (_currentDate : JsDate) : JsDate := today

end CalendarPage


/-! ## Supporting lemmas -/

theorem jsTrim_length_le (s : String) : (jsTrim s).length ≤ s.length := by
  have h1 := (List.dropWhile_sublist (l := s.data) jsWhitespace).length_le
  have h2 := (List.dropWhile_sublist
    (l := (s.data.dropWhile jsWhitespace).reverse) jsWhitespace).length_le
  rw [List.length_reverse] at h2
  show ((s.data.dropWhile jsWhitespace).reverse.dropWhile jsWhitespace).reverse.length
      ≤ s.data.length
  rw [List.length_reverse]
  exact le_trans h2 h1

namespace CalendarPage

theorem daysBeforeMonth_succ (y m : Nat) (h : 1 ≤ m) :
    daysBeforeMonth y (m + 1) = daysBeforeMonth y m + daysInMonth y m := by
  cases m with
  | zero => omega
  | succ k => rfl

theorem validDate_mk (y m d : Nat) :
    ValidDate ⟨y, m, d⟩ ↔
      1970 ≤ y ∧ 1 ≤ m ∧ m ≤ 12 ∧ 1 ≤ d ∧ d ≤ daysInMonth y m :=
  Iff.rfl

theorem dayNumber_mk (y m d : Nat) :
    dayNumber ⟨y, m, d⟩ = daysBeforeYear y + daysBeforeMonth y m + (d - 1) :=
  rfl

theorem dayNumber_def (p : JsDate) :
    dayNumber p = daysBeforeYear p.year + daysBeforeMonth p.year p.month + (p.day - 1) :=
  rfl

theorem daysInMonth_pos (y m : Nat) (h1 : 1 ≤ m) (h2 : m ≤ 12) :
    1 ≤ daysInMonth y m := by
  interval_cases m <;> simp [daysInMonth] <;> split <;> omega

theorem daysInMonth_twelve (y : Nat) : daysInMonth y 12 = 31 := rfl

theorem predDay_spec (p : JsDate) (hv : ValidDate p) (h1 : 1 ≤ dayNumber p) :
    ValidDate (predDay p) ∧ dayNumber (predDay p) + 1 = dayNumber p := by
  obtain ⟨hy, hm1, hm12, hd1, hdm⟩ := hv
  rw [dayNumber_def] at h1
  unfold predDay
  by_cases hd : 1 < p.day
  · rw [if_pos hd, validDate_mk, dayNumber_mk, dayNumber_def]
    exact ⟨⟨hy, hm1, hm12, by omega, by omega⟩, by omega⟩
  · by_cases hm : 1 < p.month
    · rw [if_neg hd, if_pos hm, validDate_mk, dayNumber_mk, dayNumber_def]
      have hmsucc : p.month - 1 + 1 = p.month := by omega
      have hrec : daysBeforeMonth p.year p.month
          = daysBeforeMonth p.year (p.month - 1) + daysInMonth p.year (p.month - 1) := by
        conv_lhs => rw [← hmsucc]
        exact daysBeforeMonth_succ _ _ (by omega)
      have hpos : 1 ≤ daysInMonth p.year (p.month - 1) :=
        daysInMonth_pos _ _ (by omega) (by omega)
      exact ⟨⟨hy, by omega, by omega, hpos, le_refl _⟩, by omega⟩
    · rw [if_neg hd, if_neg hm, validDate_mk, dayNumber_mk, dayNumber_def]
      have hd1' : p.day = 1 := by omega
      have hm1' : p.month = 1 := by omega
      have hbm1 : daysBeforeMonth p.year p.month = 0 := by
        rw [hm1']
        rfl
      have hy71 : 1971 ≤ p.year := by
        by_contra hlt
        have hy0 : p.year = 1970 := by omega
        have hz : daysBeforeYear p.year = 0 := by
          unfold daysBeforeYear
          rw [hy0]
          rfl
        omega
      have hby : daysBeforeYear p.year
          = daysBeforeYear (p.year - 1) + daysBeforeMonth (p.year - 1) 13 := by
        unfold daysBeforeYear
        have h2 : p.year - 1970 = (p.year - 1971) + 1 := by omega
        rw [h2]
        show daysSinceEpochOfYear (p.year - 1971)
            + daysBeforeMonth (1970 + (p.year - 1971)) 13 = _
        have h3 : 1970 + (p.year - 1971) = p.year - 1 := by omega
        have h4 : p.year - 1 - 1970 = p.year - 1971 := by omega
        rw [h3, h4]
      have h13 : daysBeforeMonth (p.year - 1) 13
          = daysBeforeMonth (p.year - 1) 12 + 31 := by
        have h := daysBeforeMonth_succ (p.year - 1) 12 (by omega)
        rw [daysInMonth_twelve] at h
        exact h
      have hdim : daysInMonth (p.year - 1) 12 = 31 := daysInMonth_twelve _
      exact ⟨⟨by omega, by omega, by omega, by omega, by omega⟩, by omega⟩

theorem succDay_spec (p : JsDate) (hv : ValidDate p) :
    ValidDate (succDay p) ∧ dayNumber (succDay p) = dayNumber p + 1 := by
  obtain ⟨hy, hm1, hm12, hd1, hdm⟩ := hv
  unfold succDay
  by_cases hd : p.day < daysInMonth p.year p.month
  · rw [if_pos hd, validDate_mk, dayNumber_mk, dayNumber_def]
    exact ⟨⟨hy, hm1, hm12, by omega, by omega⟩, by omega⟩
  · by_cases hm : p.month < 12
    · rw [if_neg hd, if_pos hm, validDate_mk, dayNumber_mk, dayNumber_def]
      have hrec : daysBeforeMonth p.year (p.month + 1)
          = daysBeforeMonth p.year p.month + daysInMonth p.year p.month :=
        daysBeforeMonth_succ _ _ hm1
      have hpos : 1 ≤ daysInMonth p.year (p.month + 1) :=
        daysInMonth_pos _ _ (by omega) (by omega)
      exact ⟨⟨hy, by omega, by omega, le_refl _, hpos⟩, by omega⟩
    · rw [if_neg hd, if_neg hm, validDate_mk, dayNumber_mk, dayNumber_def]
      have hm12' : p.month = 12 := by omega
      have hdim : daysInMonth p.year p.month = 31 := by
        rw [hm12']
        exact daysInMonth_twelve _
      have hbm12 : daysBeforeMonth p.year p.month = daysBeforeMonth p.year 12 := by
        rw [hm12']
      have hby : daysBeforeYear (p.year + 1)
          = daysBeforeYear p.year + daysBeforeMonth p.year 13 := by
        unfold daysBeforeYear
        have h2 : p.year + 1 - 1970 = (p.year - 1970) + 1 := by omega
        rw [h2]
        show daysSinceEpochOfYear (p.year - 1970)
            + daysBeforeMonth (1970 + (p.year - 1970)) 13 = _
        have h3 : 1970 + (p.year - 1970) = p.year := by omega
        rw [h3]
      have h13 : daysBeforeMonth p.year 13 = daysBeforeMonth p.year 12 + 31 := by
        have h := daysBeforeMonth_succ p.year 12 (by omega)
        rw [daysInMonth_twelve] at h
        exact h
      have hbm1 : daysBeforeMonth (p.year + 1) 1 = 0 := rfl
      have hdim1 : 1 ≤ daysInMonth (p.year + 1) 1 := daysInMonth_pos _ _ (by omega) (by omega)
      exact ⟨⟨by omega, by omega, by omega, by omega, by omega⟩, by omega⟩

theorem subDays_spec (p : JsDate) (k : Nat) (hv : ValidDate p)
    (hk : k ≤ dayNumber p) :
    ValidDate (subDays p k) ∧ dayNumber (subDays p k) = dayNumber p - k := by
  induction k with
  | zero => exact ⟨hv, rfl⟩
  | succ n ih =>
    obtain ⟨hv', hd'⟩ := ih (by omega)
    have h1 : 1 ≤ dayNumber (subDays p n) := by omega
    obtain ⟨hv'', hd''⟩ := predDay_spec _ hv' h1
    have e : subDays p (n + 1) = predDay (subDays p n) := rfl
    rw [e]
    exact ⟨hv'', by omega⟩

theorem addDays_spec (p : JsDate) (k : Nat) (hv : ValidDate p) :
    ValidDate (addDays p k) ∧ dayNumber (addDays p k) = dayNumber p + k := by
  induction k with
  | zero =>
    have e0 : addDays p 0 = p := rfl
    rw [e0]
    exact ⟨hv, by omega⟩
  | succ n ih =>
    obtain ⟨hv', hd'⟩ := ih
    obtain ⟨hv'', hd''⟩ := succDay_spec _ hv'
    have e : addDays p (n + 1) = succDay (addDays p n) := rfl
    rw [e]
    exact ⟨hv'', by omega⟩

theorem getDayOfWeek_le (p : JsDate) : getDayOfWeek p ≤ 6 := by
  unfold getDayOfWeek
  omega

end CalendarPage

/-! ## Claim theorems -/

/-- C1: for every reject or cancel submission whose entered reason has
trimmed length below 10, the dialog's disabled guard blocks the click and no
reject/cancel request is issued; conversely every reason a reject or cancel
dialog sends is the trimmed input and has length at least 10. -/
theorem C1_reason_min_length (isPending : Bool) (reason : String) :
    ((jsTrim reason).length < 10 →
      TeacherSessionRequestsPage.rejectSubmit isPending reason = none ∧
      SessionDetailDialog.rejectSubmit isPending reason = none ∧
      SessionDetailDialog.cancelSubmit isPending reason = none) ∧
    (∀ r, TeacherSessionRequestsPage.rejectSubmit isPending reason = some r →
      10 ≤ r.length ∧ r = jsTrim reason) ∧
    (∀ r, SessionDetailDialog.rejectSubmit isPending reason = some r →
      10 ≤ r.length ∧ r = jsTrim reason) ∧
    (∀ r, SessionDetailDialog.cancelSubmit isPending reason = some r →
      10 ≤ r.length ∧ r = jsTrim reason) := by
  constructor
  · intro hlt
    have hdec : decide ((jsTrim reason).length < 10) = true := decide_eq_true hlt
    refine ⟨?_, ?_, ?_⟩ <;>
      simp [TeacherSessionRequestsPage.rejectSubmit,
        TeacherSessionRequestsPage.rejectDisabled,
        SessionDetailDialog.rejectSubmit, SessionDetailDialog.rejectDisabled,
        SessionDetailDialog.cancelSubmit, SessionDetailDialog.cancelDisabled, hdec]
  · refine ⟨?_, ?_, ?_⟩ <;>
      · intro r h
        by_cases h10 : (jsTrim reason).length < 10
        · exfalso
          simp [TeacherSessionRequestsPage.rejectSubmit,
            TeacherSessionRequestsPage.rejectDisabled,
            SessionDetailDialog.rejectSubmit, SessionDetailDialog.rejectDisabled,
            SessionDetailDialog.cancelSubmit, SessionDetailDialog.cancelDisabled,
            decide_eq_true h10] at h
        · have hge : 10 ≤ (jsTrim reason).length := by omega
          have hne : jsTrim reason ≠ "" := by
            intro he
            rw [he] at hge
            simp at hge
          have htr : jsTruthyString (jsTrim reason) = true := by
            simp [jsTruthyString, hne]
          cases hp : isPending
          · rw [hp] at h
            simp [TeacherSessionRequestsPage.rejectSubmit,
              TeacherSessionRequestsPage.rejectDisabled,
              TeacherSessionRequestsPage.handleReject,
              SessionDetailDialog.rejectSubmit, SessionDetailDialog.rejectDisabled,
              SessionDetailDialog.handleReject,
              SessionDetailDialog.cancelSubmit, SessionDetailDialog.cancelDisabled,
              SessionDetailDialog.handleCancel,
              htr, decide_eq_false h10] at h
            exact ⟨h ▸ hge, h.symm⟩
          · rw [hp] at h
            simp [TeacherSessionRequestsPage.rejectSubmit,
              TeacherSessionRequestsPage.rejectDisabled,
              SessionDetailDialog.rejectSubmit, SessionDetailDialog.rejectDisabled,
              SessionDetailDialog.cancelSubmit,
              SessionDetailDialog.cancelDisabled] at h

/-- C10: `toApiClientError` is total over the whole input universe by
construction, is the identity on values that are already `ApiClientError`s
(hence idempotent), and maps any non-Error value to an `ApiClientError`
whose message is `'Something went wrong'`. -/
theorem C10_toApiClientError_total_idempotent :
    (∀ e : ApiClientError, toApiClientError (.apiClientError e) = e) ∧
    (∀ v : ErrorValue,
      toApiClientError (.apiClientError (toApiClientError v)) = toApiClientError v) ∧
    toApiClientError .nonError = { message := "Something went wrong" } :=
  ⟨fun _ => rfl, fun _ => rfl, rfl⟩

/-- C8: in the day-sessions dialog, the session detail dialog and the
student live-sessions list, the join link is rendered exactly when the
session carries a meeting link, its status is scheduled or ongoing, and its
start date is the viewer's current local calendar date; violating either
conjunct suppresses the link in all three views. -/
theorem C8_join_link_guard (s : Session) (today : Nat) :
    (DaySessionsDialog.joinLinkVisible s today = true ↔
      jsTruthyOptString s.meetingLink = true ∧
      (s.status = .scheduled ∨ s.status = .ongoing) ∧
      localDay s.startTime = localDay today) ∧
    SessionDetailDialog.joinLinkVisible s today
      = DaySessionsDialog.joinLinkVisible s today ∧
    LiveSessionsPage.joinLinkVisible s today
      = DaySessionsDialog.joinLinkVisible s today ∧
    (¬(s.status = .scheduled ∨ s.status = .ongoing) ∨
        localDay s.startTime ≠ localDay today →
      DaySessionsDialog.joinLinkVisible s today = false ∧
      SessionDetailDialog.joinLinkVisible s today = false ∧
      LiveSessionsPage.joinLinkVisible s today = false) := by
  have hiff : DaySessionsDialog.joinLinkVisible s today = true ↔
      jsTruthyOptString s.meetingLink = true ∧
      (s.status = .scheduled ∨ s.status = .ongoing) ∧
      localDay s.startTime = localDay today := by
    simp [DaySessionsDialog.joinLinkVisible, Bool.and_eq_true, Bool.or_eq_true,
      beq_iff_eq, decide_eq_true_eq, and_assoc]
  refine ⟨hiff, rfl, rfl, ?_⟩
  intro hviol
  have hfalse : DaySessionsDialog.joinLinkVisible s today = false := by
    cases hb : DaySessionsDialog.joinLinkVisible s today
    · rfl
    · exact absurd (hiff.mp hb) (by tauto)
  exact ⟨hfalse, hfalse, hfalse⟩

/-- Witness for C1: a 9-character reason is blocked in every dialog, and a
24-character reason goes through as its trimmed self. -/
theorem C1_reason_min_length_witness :
    (jsTrim "too short").length < 10 ∧
    TeacherSessionRequestsPage.rejectSubmit false "too short" = none ∧
    SessionDetailDialog.cancelSubmit false "too short" = none ∧
    TeacherSessionRequestsPage.rejectSubmit false "Not available that day" =
      some "Not available that day" :=
  ⟨by decide,
   ((C1_reason_min_length false "too short").1 (by decide)).1,
   ((C1_reason_min_length false "too short").1 (by decide)).2.2,
   by decide⟩

/-- Witness for C8: a completed session with a meeting link on today's date
shows no join link in any of the three views. -/
theorem C8_join_link_guard_witness :
    (¬((Session.mk "s1" "Algebra" none 0 3600000 .completed
          (some "https://meet.example/x") none none).status = .scheduled ∨
        (Session.mk "s1" "Algebra" none 0 3600000 .completed
          (some "https://meet.example/x") none none).status = .ongoing) ∨
      localDay (Session.mk "s1" "Algebra" none 0 3600000 .completed
          (some "https://meet.example/x") none none).startTime ≠ localDay 0) ∧
    DaySessionsDialog.joinLinkVisible
      (Session.mk "s1" "Algebra" none 0 3600000 .completed
        (some "https://meet.example/x") none none) 0 = false ∧
    LiveSessionsPage.joinLinkVisible
      (Session.mk "s1" "Algebra" none 0 3600000 .completed
        (some "https://meet.example/x") none none) 0 = false :=
  ⟨by decide,
   ((C8_join_link_guard _ 0).2.2.2 (by decide)).1,
   ((C8_join_link_guard _ 0).2.2.2 (by decide)).2.2⟩

/-- C2 (code bug): `handleApiError` raises a toast on every failure before
its callers can decide anything, so a mutation failure carrying field-scoped
validation errors produces BOTH inline field errors and a toast in the
request dialog (whose `if (message && !fieldErrors)` guard is dead code — a
JavaScript object is always truthy), and produces two identical toasts in
the accept/reject/cancel/reschedule handlers. -/
theorem C2_failure_both_inline_and_toast :
    requestMutationOnError (.axiosError
      { message := "Request failed with status code 400"
        response := some
          { status := 400
            statusText := "Bad Request"
            data := some (.payload
              { success := false
                message := some "Validation failed"
                errors := some
                  [{ field := some "description"
                     message := "description must be at least 10 characters" }] }) } }) =
      { inlineFieldErrors :=
          some [("description", "description must be at least 10 characters")]
        toasts := ["Validation failed"] } ∧
    rejectMutationOnError (.axiosError
      { message := "Request failed with status code 400"
        response := some
          { status := 400
            statusText := "Bad Request"
            data := some (.payload
              { success := false
                message := some "Validation failed"
                errors := some
                  [{ field := some "description"
                     message := "description must be at least 10 characters" }] }) } }) =
      { inlineFieldErrors := none
        toasts := ["Validation failed", "Validation failed"] } := by
  constructor
  · rfl
  · rfl

/-- C6: submitting the student session-request form with a Sunday date that
is not today, not in the past and not before the program minimum date sets
the date field error to exactly "Sessions cannot be scheduled on Sundays"
and returns before the mutation fires, whatever the other fields hold. -/
theorem C6_sunday_blocks_submit (selectedSubject : String)
    (selectedSlot : Option RequestSessionDialog.SelectedSlot)
    (subjects : List (String × String)) (selected today minDateObj : Nat)
    (focusOneId : String)
    (hsun : jsGetDay selected = 0) (hne : selected ≠ today)
    (hpast : ¬ selected < today) (hmin : ¬ selected < minDateObj) :
    (RequestSessionDialog.handleSubmit selectedSubject (some selected)
        selectedSlot subjects today minDateObj focusOneId).1.lookup "date" =
      some RequestSessionDialog.sundayMessage ∧
    (RequestSessionDialog.handleSubmit selectedSubject (some selected)
        selectedSlot subjects today minDateObj focusOneId).2 = none := by
  have hdate : RequestSessionDialog.dateValidationError selected today minDateObj =
      some RequestSessionDialog.sundayMessage := by
    unfold RequestSessionDialog.dateValidationError
    rw [if_neg hne, if_neg hpast, if_neg hmin, if_pos hsun]
  unfold RequestSessionDialog.handleSubmit
  dsimp only
  rw [hdate]
  by_cases hsub : jsTruthyString (jsTrim selectedSubject) = true
  · cases hslot : selectedSlot <;>
      simp [hsub, hslot, List.lookup]
  · have hsub' : jsTruthyString (jsTrim selectedSubject) = false := by
      cases hb : jsTruthyString (jsTrim selectedSubject)
      · rfl
      · exact absurd hb hsub
    cases hslot : selectedSlot <;>
      simp [hsub', hslot, List.lookup]

/-- Witness for C6: day 3 (a Sunday: 1970-01-04) with today = day 1 and
minimum date day 2 is rejected with the Sunday message and no request. -/
theorem C6_sunday_blocks_submit_witness :
    jsGetDay 3 = 0 ∧ (3 : Nat) ≠ 1 ∧ ¬(3 : Nat) < 1 ∧ ¬(3 : Nat) < 2 ∧
    (RequestSessionDialog.handleSubmit "math" (some 3)
        (some { startTime := 0, endTime := 0 }) [] 1 2 "fo1").1.lookup "date" =
      some RequestSessionDialog.sundayMessage ∧
    (RequestSessionDialog.handleSubmit "math" (some 3)
        (some { startTime := 0, endTime := 0 }) [] 1 2 "fo1").2 = none :=
  ⟨by decide, by decide, by decide, by decide,
   (C6_sunday_blocks_submit "math" (some { startTime := 0, endTime := 0 }) [] 3 1 2 "fo1"
     (by decide) (by decide) (by decide) (by decide)).1,
   (C6_sunday_blocks_submit "math" (some { startTime := 0, endTime := 0 }) [] 3 1 2 "fo1"
     (by decide) (by decide) (by decide) (by decide)).2⟩

/-- C5: for every `today` and every optional program start date, `getMinDate`
returns the later of "tomorrow" and "one day after the program start date",
each bumped off a Sunday; the result is never a Sunday and never earlier
than tomorrow. -/
theorem C5_getMinDate_spec (today : Nat) (programStartDate : Option Nat) :
    jsGetDay (RequestSessionDialog.getMinDate today programStartDate) ≠ 0 ∧
    today + 1 ≤ RequestSessionDialog.getMinDate today programStartDate ∧
    RequestSessionDialog.getMinDate today programStartDate =
      max (RequestSessionDialog.skipSunday ((programStartDate.getD today) + 1))
        (RequestSessionDialog.skipSunday (today + 1)) := by
  cases programStartDate with
  | none =>
    unfold RequestSessionDialog.getMinDate RequestSessionDialog.skipSunday jsGetDay
    simp only [Option.getD]
    rw [Nat.max_def]
    split_ifs <;> refine ⟨?_, ?_, ?_⟩ <;> omega
  | some startDate =>
    unfold RequestSessionDialog.getMinDate RequestSessionDialog.skipSunday jsGetDay
    simp only [Option.getD]
    rw [Nat.max_def]
    split_ifs <;> refine ⟨?_, ?_, ?_⟩ <;> omega

/-- C7 (amended): every accept request issued by the accept dialogs carries
a non-empty trimmed title and a trimmed description of at least 10
characters, and trimming never lengthens a field, so WHEN the dialog state
respects the input caps (as typed input does under `maxLength`) the sent
title is at most 200 and the description at most 1000 characters; the
length caps are not checked by the submit path itself, so pre-filled values
beyond the caps pass through (see the counterexample). -/
theorem C7_accept_request_bounds (isPending : Bool) (title description : String)
    (req : AcceptSessionRequest)
    (h : TeacherSessionRequestsPage.acceptSubmit isPending title description = some req) :
    (∃ t, req.title = some t ∧ t ≠ "" ∧ t.length ≤ title.length ∧
      (title.length ≤ 200 → t.length ≤ 200)) ∧
    (∃ d, req.description = some d ∧ 10 ≤ d.length ∧ d.length ≤ description.length ∧
      (description.length ≤ 1000 → d.length ≤ 1000)) ∧
    SessionDetailDialog.acceptSubmit isPending title description = some req := by
  by_cases h10 : (jsTrim description).length < 10
  · exfalso
    simp [TeacherSessionRequestsPage.acceptSubmit,
      TeacherSessionRequestsPage.acceptDisabled, decide_eq_true h10] at h
  by_cases htt : jsTruthyString (jsTrim title) = true
  case neg =>
    exfalso
    have htt' : jsTruthyString (jsTrim title) = false := by
      cases hb : jsTruthyString (jsTrim title)
      · rfl
      · exact absurd hb htt
    simp [TeacherSessionRequestsPage.acceptSubmit,
      TeacherSessionRequestsPage.acceptDisabled, htt'] at h
  by_cases htd : jsTruthyString (jsTrim description) = true
  case neg =>
    exfalso
    have htd' : jsTruthyString (jsTrim description) = false := by
      cases hb : jsTruthyString (jsTrim description)
      · rfl
      · exact absurd hb htd
    simp [TeacherSessionRequestsPage.acceptSubmit,
      TeacherSessionRequestsPage.acceptDisabled, htd'] at h
  rcases hp : isPending with _ | _
  swap
  · exfalso
    rw [hp] at h
    simp [TeacherSessionRequestsPage.acceptSubmit,
      TeacherSessionRequestsPage.acceptDisabled] at h
  · rw [hp] at h
    simp [TeacherSessionRequestsPage.acceptSubmit,
      TeacherSessionRequestsPage.acceptDisabled,
      TeacherSessionRequestsPage.handleAccept,
      htt, htd, decide_eq_false h10] at h
    have hreq : req = { title := some (jsTrim title)
                        description := some (jsTrim description) } := h.symm
    have htne : jsTrim title ≠ "" := by
      intro he
      rw [he] at htt
      simp [jsTruthyString] at htt
    refine ⟨⟨jsTrim title, by rw [hreq], htne, jsTrim_length_le title, ?_⟩,
      ⟨jsTrim description, by rw [hreq], by omega, jsTrim_length_le description, ?_⟩, ?_⟩
    · intro hcap
      exact le_trans (jsTrim_length_le title) hcap
    · intro hcap
      exact le_trans (jsTrim_length_le description) hcap
    · show SessionDetailDialog.acceptSubmit false title description = some req
      simp [SessionDetailDialog.acceptSubmit, SessionDetailDialog.acceptDisabled,
        SessionDetailDialog.handleAccept, htt, htd, decide_eq_false h10, hreq]

set_option maxRecDepth 8000 in
/-- Counterexample to C7 as stated: the accept dialog opened on a session
whose stored title is 201 characters (pre-filled by `openAcceptDialog`
without truncation — `maxLength` does not apply to programmatic values) is
submittable unchanged, and the issued accept request carries a title of 201
characters, violating the 200-character bound. -/
theorem C7_counterexample :
    TeacherSessionRequestsPage.acceptSubmit false
      (TeacherSessionRequestsPage.openAcceptDialog
        (Session.mk "s1" ⟨List.replicate 201 'a'⟩
          (some "Covering quadratic equations in depth") 0 4500000 .requested
          none none none)).1
      (TeacherSessionRequestsPage.openAcceptDialog
        (Session.mk "s1" ⟨List.replicate 201 'a'⟩
          (some "Covering quadratic equations in depth") 0 4500000 .requested
          none none none)).2 =
      some { title := some ⟨List.replicate 201 'a'⟩
             description := some "Covering quadratic equations in depth" } ∧
    200 < (String.mk (List.replicate 201 'a')).length := by
  constructor
  · rfl
  · decide

/-- Witness for C7 (amended): a well-formed accept submission goes out with
its trimmed fields, and the theorem's bounds hold for it. -/
theorem C7_accept_request_bounds_witness :
    TeacherSessionRequestsPage.acceptSubmit false "Algebra Review"
        "Covering quadratic equations in depth" =
      some { title := some "Algebra Review"
             description := some "Covering quadratic equations in depth" } ∧
    (∃ d, (AcceptSessionRequest.mk (some "Algebra Review")
        (some "Covering quadratic equations in depth")).description = some d ∧
      10 ≤ d.length ∧
      d.length ≤ ("Covering quadratic equations in depth" : String).length ∧
      (("Covering quadratic equations in depth" : String).length ≤ 1000 →
        d.length ≤ 1000)) :=
  ⟨by decide,
   (C7_accept_request_bounds false "Algebra Review"
     "Covering quadratic equations in depth"
     (AcceptSessionRequest.mk (some "Algebra Review")
       (some "Covering quadratic equations in depth")) (by decide)).2.1⟩

/-- C3: a month-view day cell renders at most 3 sessions inline; with N > 3
sessions it shows a "+N−3 more" affordance; the day-sessions dialog it opens
reports and lists exactly the day's N sessions, sorted ascending by start
time. -/
theorem C3_month_cell_overflow (sessions : List Session) (day : Nat) :
    (MonthView.inlineSessions (MonthView.getSessionsForDate sessions day)).length ≤ 3 ∧
    (3 < (MonthView.getSessionsForDate sessions day).length →
      MonthView.overflowLabelCount (MonthView.getSessionsForDate sessions day) =
        some ((MonthView.getSessionsForDate sessions day).length - 3)) ∧
    ((MonthView.getSessionsForDate sessions day).length ≤ 3 →
      MonthView.overflowLabelCount (MonthView.getSessionsForDate sessions day) = none) ∧
    DaySessionsDialog.sessionCount (MonthView.getSessionsForDate sessions day) =
      (MonthView.getSessionsForDate sessions day).length ∧
    (DaySessionsDialog.sortedSessions (MonthView.getSessionsForDate sessions day)).length =
      (MonthView.getSessionsForDate sessions day).length ∧
    (∀ s, s ∈ DaySessionsDialog.sortedSessions (MonthView.getSessionsForDate sessions day) ↔
      s ∈ MonthView.getSessionsForDate sessions day) ∧
    List.Pairwise (fun a b : Session => a.startTime ≤ b.startTime)
      (DaySessionsDialog.sortedSessions (MonthView.getSessionsForDate sessions day)) := by
  refine ⟨?_, ?_, ?_, rfl, ?_, ?_, ?_⟩
  · simp only [MonthView.inlineSessions, List.length_take]
    omega
  · intro hgt
    unfold MonthView.overflowLabelCount
    rw [if_pos hgt]
  · intro hle
    unfold MonthView.overflowLabelCount
    rw [if_neg (by omega)]
  · exact (List.mergeSort_perm (MonthView.getSessionsForDate sessions day) _).length_eq
  · intro s
    exact (List.mergeSort_perm (MonthView.getSessionsForDate sessions day) _).mem_iff
  · have hs := @List.sorted_mergeSort Session
      (fun a b : Session => decide (a.startTime ≤ b.startTime))
      (fun a b c hab hbc => by
        simp only [decide_eq_true_eq] at *
        omega)
      (fun a b => by
        simp only [Bool.or_eq_true, decide_eq_true_eq]
        exact Nat.le_total a.startTime b.startTime)
      (MonthView.getSessionsForDate sessions day)
    exact hs.imp (fun h => of_decide_eq_true h)

/-- Witness for C3: a day with four sessions shows the "+1 more" affordance,
at most 3 inline entries, and a dialog listing all four. -/
theorem C3_month_cell_overflow_witness :
    3 < (MonthView.getSessionsForDate
      [Session.mk "a" "A" none 7200000 10800000 .scheduled none none none,
       Session.mk "b" "B" none 3600000 7200000 .scheduled none none none,
       Session.mk "c" "C" none 0 3600000 .scheduled none none none,
       Session.mk "d" "D" none 10800000 14400000 .scheduled none none none] 0).length ∧
    MonthView.overflowLabelCount (MonthView.getSessionsForDate
      [Session.mk "a" "A" none 7200000 10800000 .scheduled none none none,
       Session.mk "b" "B" none 3600000 7200000 .scheduled none none none,
       Session.mk "c" "C" none 0 3600000 .scheduled none none none,
       Session.mk "d" "D" none 10800000 14400000 .scheduled none none none] 0) =
      some ((MonthView.getSessionsForDate
      [Session.mk "a" "A" none 7200000 10800000 .scheduled none none none,
       Session.mk "b" "B" none 3600000 7200000 .scheduled none none none,
       Session.mk "c" "C" none 0 3600000 .scheduled none none none,
       Session.mk "d" "D" none 10800000 14400000 .scheduled none none none] 0).length - 3) ∧
    (MonthView.inlineSessions (MonthView.getSessionsForDate
      [Session.mk "a" "A" none 7200000 10800000 .scheduled none none none,
       Session.mk "b" "B" none 3600000 7200000 .scheduled none none none,
       Session.mk "c" "C" none 0 3600000 .scheduled none none none,
       Session.mk "d" "D" none 10800000 14400000 .scheduled none none none] 0)).length ≤ 3 :=
  ⟨by decide,
   (C3_month_cell_overflow
      [Session.mk "a" "A" none 7200000 10800000 .scheduled none none none,
       Session.mk "b" "B" none 3600000 7200000 .scheduled none none none,
       Session.mk "c" "C" none 0 3600000 .scheduled none none none,
       Session.mk "d" "D" none 10800000 14400000 .scheduled none none none] 0).2.1
     (by decide),
   (C3_month_cell_overflow
      [Session.mk "a" "A" none 7200000 10800000 .scheduled none none none,
       Session.mk "b" "B" none 3600000 7200000 .scheduled none none none,
       Session.mk "c" "C" none 0 3600000 .scheduled none none none,
       Session.mk "d" "D" none 10800000 14400000 .scheduled none none none] 0).1⟩

/-- Supporting fact: a start time lying on day `day` at hour `hour` lies in
that hour's window, so the candidate filter's first disjunct holds. -/
theorem startTime_in_hour_window (t day hour : Nat)
    (hd : localDay t = day) (hh : localHour t = hour) :
    day * msPerDay + hour * msPerHour ≤ t ∧
      t < day * msPerDay + hour * msPerHour + msPerHour := by
  unfold localDay localHour msPerDay msPerHour at *
  omega

/-- C4: in the week view and the day view a session is rendered exactly in
the hour cell of its start hour on its start day — membership in a rendered
cell is equivalent to matching the start day and start hour, so no session
appears in two hour cells even though the candidate filter matches every
overlapping hour. -/
theorem C4_one_hour_cell (sessions : List Session) (s : Session) (day hour : Nat) :
    (s ∈ WeekView.renderedSessions sessions day hour ↔
      s ∈ sessions ∧ localDay s.startTime = day ∧ localHour s.startTime = hour) ∧
    (s ∈ DayView.renderedSessions sessions day hour ↔
      s ∈ sessions ∧ localDay s.startTime = day ∧ localHour s.startTime = hour) ∧
    (∀ day2 hour2, s ∈ WeekView.renderedSessions sessions day hour →
      s ∈ WeekView.renderedSessions sessions day2 hour2 →
      day = day2 ∧ hour = hour2) ∧
    (∀ day2 hour2, s ∈ DayView.renderedSessions sessions day hour →
      s ∈ DayView.renderedSessions sessions day2 hour2 →
      day = day2 ∧ hour = hour2) := by
  have hweek : ∀ d h, s ∈ WeekView.renderedSessions sessions d h ↔
      s ∈ sessions ∧ localDay s.startTime = d ∧ localHour s.startTime = h := by
    intro d h
    simp only [WeekView.renderedSessions, WeekView.getSessionsForHour,
      WeekView.getSessionsForDate, List.mem_filter, decide_eq_true_eq]
    constructor
    · rintro ⟨⟨⟨hs, hd⟩, -⟩, hh⟩
      exact ⟨hs, hd, hh⟩
    · rintro ⟨hs, hd, hh⟩
      have hw := startTime_in_hour_window s.startTime d h hd hh
      exact ⟨⟨⟨hs, hd⟩, Or.inl ⟨hw.1, hw.2⟩⟩, hh⟩
  have hday : ∀ d h, s ∈ DayView.renderedSessions sessions d h ↔
      s ∈ sessions ∧ localDay s.startTime = d ∧ localHour s.startTime = h := by
    intro d h
    have hmem : ∀ x : Session, x ∈ DayView.sortedSessions sessions d ↔
        x ∈ DayView.daySessions sessions d := by
      intro x
      exact (List.mergeSort_perm (DayView.daySessions sessions d) _).mem_iff
    simp only [DayView.renderedSessions, DayView.getSessionsForHour,
      List.mem_filter, decide_eq_true_eq, hmem, DayView.daySessions]
    constructor
    · rintro ⟨⟨⟨hs, hd⟩, -⟩, hh⟩
      exact ⟨hs, hd, hh⟩
    · rintro ⟨hs, hd, hh⟩
      have hw := startTime_in_hour_window s.startTime d h hd hh
      exact ⟨⟨⟨hs, hd⟩, Or.inl ⟨hw.1, hw.2⟩⟩, hh⟩
  refine ⟨hweek day hour, hday day hour, ?_, ?_⟩
  · intro day2 hour2 h1 h2
    obtain ⟨-, hd1, hh1⟩ := (hweek day hour).mp h1
    obtain ⟨-, hd2, hh2⟩ := (hweek day2 hour2).mp h2
    omega
  · intro day2 hour2 h1 h2
    obtain ⟨-, hd1, hh1⟩ := (hday day hour).mp h1
    obtain ⟨-, hd2, hh2⟩ := (hday day2 hour2).mp h2
    omega

/-- Witness for C4: a session running 9:30–10:45 is rendered in the 9 AM
cell of its day and nowhere else, although it overlaps the 10 AM hour. -/
theorem C4_one_hour_cell_witness :
    Session.mk "s1" "T" none 34200000 38700000 .scheduled none none none ∈
      WeekView.renderedSessions
        [Session.mk "s1" "T" none 34200000 38700000 .scheduled none none none] 0 9 ∧
    (Session.mk "s1" "T" none 34200000 38700000 .scheduled none none none ∈
      WeekView.getSessionsForHour 0 10
        (WeekView.getSessionsForDate
          [Session.mk "s1" "T" none 34200000 38700000 .scheduled none none none] 0)) ∧
    Session.mk "s1" "T" none 34200000 38700000 .scheduled none none none ∉
      WeekView.renderedSessions
        [Session.mk "s1" "T" none 34200000 38700000 .scheduled none none none] 0 10 ∧
    (0 = 0 ∧ 9 = 9) :=
  ⟨by decide, by decide, by decide,
   (C4_one_hour_cell
      [Session.mk "s1" "T" none 34200000 38700000 .scheduled none none none]
      (Session.mk "s1" "T" none 34200000 38700000 .scheduled none none none)
      0 9).2.2.1 0 9 (by decide) (by decide)⟩

open CalendarPage in
/-- C9: the visible calendar range is the pure function of (view, pivot)
given by standard period arithmetic — month view spans the pivot's month
from day 1 to its last day, week view spans the Sunday-started week of the
pivot (the start has weekday 0 and the end is six days later), day view is
the pivot's single day — and navigating to today is idempotent: recomputing
the range for the same pivot yields the same range. -/
theorem C9_dateRange_pure (p today : JsDate)
    (hv : ValidDate p) (hn : 6 ≤ dayNumber p) :
    (dateRange .month p = (startOfMonth p, endOfMonth p) ∧
      (startOfMonth p).day = 1 ∧
      (startOfMonth p).month = p.month ∧
      (startOfMonth p).year = p.year ∧
      (endOfMonth p).day = daysInMonth p.year p.month ∧
      dayNumber (startOfMonth p) ≤ dayNumber p ∧
      dayNumber p ≤ dayNumber (endOfMonth p)) ∧
    (dateRange .week p = (startOfWeek p, endOfWeek p) ∧
      getDayOfWeek (startOfWeek p) = 0 ∧
      dayNumber (endOfWeek p) = dayNumber (startOfWeek p) + 6 ∧
      dayNumber (startOfWeek p) ≤ dayNumber p ∧
      dayNumber p ≤ dayNumber (endOfWeek p)) ∧
    dateRange .day p = (p, p) ∧
    (∀ v, dateRange v (handleToday today p) = dateRange v today) ∧
    handleToday today (handleToday today p) = handleToday today p := by
  obtain ⟨hy, hm1, hm12, hd1, hdm⟩ := hv
  have hk6 : getDayOfWeek p ≤ 6 := getDayOfWeek_le p
  have hkn : getDayOfWeek p ≤ dayNumber p := by omega
  obtain ⟨hvs, hds⟩ := subDays_spec p (getDayOfWeek p) ⟨hy, hm1, hm12, hd1, hdm⟩ hkn
  obtain ⟨hve, hde⟩ := addDays_spec (subDays p (getDayOfWeek p)) 6 hvs
  have hsw : startOfWeek p = subDays p (getDayOfWeek p) := rfl
  have hew : endOfWeek p = addDays (subDays p (getDayOfWeek p)) 6 := rfl
  have hkdef : getDayOfWeek p = (dayNumber p + 4) % 7 := rfl
  refine ⟨⟨rfl, rfl, rfl, rfl, rfl, ?_, ?_⟩, ⟨rfl, ?_, ?_, ?_, ?_⟩, rfl,
    fun v => rfl, rfl⟩
  · show daysBeforeYear p.year + daysBeforeMonth p.year p.month + (1 - 1) ≤
        daysBeforeYear p.year + daysBeforeMonth p.year p.month + (p.day - 1)
    omega
  · show daysBeforeYear p.year + daysBeforeMonth p.year p.month + (p.day - 1) ≤
        daysBeforeYear p.year + daysBeforeMonth p.year p.month +
          (daysInMonth p.year p.month - 1)
    omega
  · rw [hsw, show getDayOfWeek (subDays p (getDayOfWeek p)) =
      (dayNumber (subDays p (getDayOfWeek p)) + 4) % 7 from rfl, hds, hkdef]
    omega
  · rw [hsw, hew, hde]
  · rw [hsw, hds]
    omega
  · rw [hew, hde, hds, hkdef]
    omega

/-- Witness for C9: the concrete pivot 1970-03-15 is a valid date at day
number 73, and the day view's range is that single day. -/
theorem C9_dateRange_pure_witness :
    CalendarPage.ValidDate ⟨1970, 3, 15⟩ ∧
    6 ≤ CalendarPage.dayNumber ⟨1970, 3, 15⟩ ∧
    CalendarPage.dateRange .day ⟨1970, 3, 15⟩ =
      (⟨1970, 3, 15⟩, ⟨1970, 3, 15⟩) ∧
    CalendarPage.getDayOfWeek
      (CalendarPage.startOfWeek ⟨1970, 3, 15⟩) = 0 :=
  ⟨by decide, by decide,
   (C9_dateRange_pure ⟨1970, 3, 15⟩ ⟨1970, 1, 8⟩ (by decide) (by decide)).2.2.1,
   (C9_dateRange_pure ⟨1970, 3, 15⟩ ⟨1970, 1, 8⟩ (by decide) (by decide)).2.1.2.1⟩
